import Mathlib

/-!
Verification of the streaming-relay and conversation-state core of the
TeamsLLMbot repository (src/bot/llm_client.py, src/bot/teams_bot.py,
src/bot/settings.py) against its natural-language specification.

The embedding models Python values produced by `json.loads` as the inductive
`PyVal`, models the SSE line decoder of `LocalLLMClient.stream_reply`, the
buffered wrapper `generate_reply`, the message builder `_build_messages`, the
`Settings` dataclass with Python attribute access, and the Teams dispatcher
`TeamsLLMBot.on_message_activity` with its per-conversation history store.

Modelling conventions:
* Machine-level Python details that the claims do not depend on are
  approximated and noted at the definition: JSON numbers are modelled as
  integers (float literals are treated as parse failures), `repr` of nested
  values does not escape characters inside strings, and `\uXXXX` escapes in
  the surrogate range fall back to `Char.ofNat`'s default.
* Exceptions (`AttributeError`, `TypeError`, `KeyError`, `HTTPStatusError`,
  transport failures) are modelled by `PyErr`; a function that can raise
  returns `Except PyErr _` or carries an `Option PyErr`.
* The HTTP exchange itself is external: the model server's response is an
  explicit input (`HttpResponse`), and the dispatcher takes the streaming
  client's observable behaviour as a function argument.
-/

/-- A Python value as produced by `json.loads`: `None`, `bool`, `int`,
`str`, `list`, or `dict` with string keys.  JSON numbers are modelled as
integers only; fractional or exponent forms are treated as parse failures
by `jsonLoads` below (a documented restriction of the model). -/
inductive PyVal where
  | null
  | bool (b : Bool)
  | int (n : Int)
  | str (s : String)
  | list (xs : List PyVal)
  | dict (xs : List (String × PyVal))

/-- Python truthiness (`bool(v)`) of a `PyVal`: `None`, `False`, `0`, `""`,
`[]` and `{}` are falsy, everything else truthy. -/
def PyVal.truthy : PyVal → Bool
  | .null => false
  | .bool b => b
  | .int n => n != 0
  | .str s => s != ""
  | .list xs => !xs.isEmpty
  | .dict xs => !xs.isEmpty

/-- `d.get(k)` on a Python dict modelled as an association list: the binding
written last wins, matching Python's overwrite-on-duplicate-key semantics. -/
def dictGet (xs : List (String × PyVal)) (k : String) : Option PyVal :=
  match xs with
  | [] => none
  | (k2, v) :: rest =>
    match dictGet rest k with
    | some r => some r
    | none => if k2 == k then some v else none

mutual
/-- Python `repr` of a `PyVal`, approximately: strings are wrapped in single
quotes without inner escaping (the claims never depend on the rendering of
non-string values, see `pyStr`). -/
def pyRepr : PyVal → String
  | .null => "None"
  | .bool b => if b then "True" else "False"
  | .int n => toString n
  | .str s => (Char.ofNat 39).toString ++ s ++ (Char.ofNat 39).toString
  | .list xs => "[" ++ String.intercalate ", " (pyReprElems xs) ++ "]"
  | .dict xs =>
      (Char.ofNat 123).toString ++ String.intercalate ", " (pyReprPairs xs)
        ++ (Char.ofNat 125).toString

/-- Renders each element of a Python list for `pyRepr`. -/
def pyReprElems : List PyVal → List String
  | [] => []
  | v :: vs => pyRepr v :: pyReprElems vs

/-- Renders each key/value pair of a Python dict for `pyRepr`. -/
def pyReprPairs : List (String × PyVal) → List String
  | [] => []
  | (k, v) :: vs =>
      ((Char.ofNat 39).toString ++ k ++ (Char.ofNat 39).toString ++ ": " ++ pyRepr v)
        :: pyReprPairs vs
end

/-- Python `str(v)`: the identity on strings, `repr`-like elsewhere. -/
def pyStr : PyVal → String
  | .str s => s
  | v => pyRepr v

/-! ### A model of `json.loads` (fuel-based, executable) -/

/-- JSON insignificant whitespace. -/
def isJsonWs (c : Char) : Bool :=
  [' ', '\t', '\n', '\r'].contains c

/-- Drops leading JSON whitespace. -/
def jsonSkipWs : List Char → List Char
  | [] => []
  | c :: cs => if isJsonWs c then jsonSkipWs cs else c :: cs

/-- Decimal digit test. -/
def isDigitCh (c : Char) : Bool := '0' ≤ c && c ≤ '9'

/-- Consumes a maximal run of decimal digits. -/
def takeDigitRun : List Char → List Char × List Char
  | [] => ([], [])
  | c :: cs =>
    if isDigitCh c then
      let (ds, r) := takeDigitRun cs
      (c :: ds, r)
    else ([], c :: cs)

/-- Numeric value of a digit run. -/
def digitRunToNat (ds : List Char) : Nat :=
  ds.foldl (fun acc c => acc * 10 + (c.toNat - 48)) 0

/-- Value of one hexadecimal digit, if any. -/
def hexDigitVal (c : Char) : Option Nat :=
  if '0' ≤ c && c ≤ '9' then some (c.toNat - 48)
  else if 'a' ≤ c && c ≤ 'f' then some (c.toNat - 97 + 10)
  else if 'A' ≤ c && c ≤ 'F' then some (c.toNat - 65 + 10)
  else none

/-- The table of one-character JSON escape sequences: escape letter paired
with the character it denotes. -/
def jsonEscapeTable : List (Char × Char) :=
  [('"', '"'), ('\\', '\\'), ('/', '/'), ('n', '\n'), ('r', '\r'), ('t', '\t'),
   ('b', Char.ofNat 8), ('f', Char.ofNat 12)]

/-- One-character JSON escape sequences, via the table. -/
def jsonUnescape (c : Char) : Option Char :=
  (jsonEscapeTable.find? (fun p => p.1 == c)).map (fun p => p.2)

/-- Parses the body of a JSON string after the opening quote, strict mode:
unescaped control characters are rejected, as in Python's default
`json.loads`.  (`\uXXXX` in the surrogate range degrades to `Char.ofNat`'s
fallback; no claim depends on it.) -/
def parseJsonStringBody (acc : List Char) : List Char → Option (String × List Char)
  | [] => none
  | c :: cs =>
    if c == '"' then some (String.mk acc.reverse, cs)
    else if c == '\\' then
      match cs with
      | 'u' :: a :: b :: c2 :: d :: rest =>
        match hexDigitVal a, hexDigitVal b, hexDigitVal c2, hexDigitVal d with
        | some va, some vb, some vc, some vd =>
          parseJsonStringBody (Char.ofNat (((va * 16 + vb) * 16 + vc) * 16 + vd) :: acc) rest
        | _, _, _, _ => none
      | e :: rest =>
        match jsonUnescape e with
        | some ch => parseJsonStringBody (ch :: acc) rest
        | none => none
      | [] => none
    else if c.toNat < 32 then none
    else parseJsonStringBody (c :: acc) cs

/-- Parses the unsigned part of a JSON integer literal (no leading zeros).
A following `.`, `e` or `E` would start a float literal, which this model
deliberately rejects (numbers are modelled as integers). -/
def parseJsonMagnitude (cs : List Char) : Option (Nat × List Char) :=
  let (ds, rest) := takeDigitRun cs
  match ds with
  | [] => none
  | d0 :: drest =>
    if d0 == '0' && !drest.isEmpty then none
    else
      match rest with
      | c :: _ =>
        if c == '.' || c == 'e' || c == 'E' then none
        else some (digitRunToNat ds, rest)
      | [] => some (digitRunToNat ds, [])

/-- Splits off an optional leading minus and parses the magnitude. -/
def parseJsonInt (cs : List Char) : Option (Int × List Char) :=
  match cs with
  | '-' :: r => (parseJsonMagnitude r).map (fun p => (-(p.1 : Int), p.2))
  | r => (parseJsonMagnitude r).map (fun p => ((p.1 : Int), p.2))

mutual
/-- Parses one JSON value (fuel-based; `jsonLoads` supplies ample fuel). -/
def parseJsonVal (fuel : Nat) (cs : List Char) : Option (PyVal × List Char) :=
  match fuel with
  | 0 => none
  | fuel + 1 =>
    match jsonSkipWs cs with
    | [] => none
    | c :: rest =>
      if c == Char.ofNat 123 then
        match jsonSkipWs rest with
        | [] => none
        | c2 :: rest2 =>
          if c2 == Char.ofNat 125 then some (.dict [], rest2)
          else parseJsonMembers fuel (c2 :: rest2)
      else if c == '[' then
        match jsonSkipWs rest with
        | [] => none
        | c2 :: rest2 =>
          if c2 == ']' then some (.list [], rest2)
          else
            match parseJsonElems fuel (c2 :: rest2) with
            | some (es, r) => some (.list es, r)
            | none => none
      else if c == '"' then
        match parseJsonStringBody [] rest with
        | some (s, r) => some (.str s, r)
        | none => none
      else
        match c :: rest with
        | 'n' :: 'u' :: 'l' :: 'l' :: r => some (.null, r)
        | 't' :: 'r' :: 'u' :: 'e' :: r => some (.bool true, r)
        | 'f' :: 'a' :: 'l' :: 's' :: 'e' :: r => some (.bool false, r)
        | cs2 =>
          match parseJsonInt cs2 with
          | some (n, r) => some (.int n, r)
          | none => none

/-- Parses one or more comma-separated array elements up to `]`. -/
def parseJsonElems (fuel : Nat) (cs : List Char) : Option (List PyVal × List Char) :=
  match fuel with
  | 0 => none
  | fuel + 1 =>
    match parseJsonVal fuel cs with
    | none => none
    | some (v, r) =>
      match jsonSkipWs r with
      | ',' :: r2 =>
        match parseJsonElems fuel r2 with
        | some (vs, r3) => some (v :: vs, r3)
        | none => none
      | ']' :: r2 => some ([v], r2)
      | _ => none

/-- Parses one or more comma-separated object members up to the closing
brace, returning the finished `PyVal.dict`. -/
def parseJsonMembers (fuel : Nat) (cs : List Char) : Option (PyVal × List Char) :=
  match fuel with
  | 0 => none
  | fuel + 1 =>
    match jsonSkipWs cs with
    | '"' :: r =>
      match parseJsonStringBody [] r with
      | none => none
      | some (k, r1) =>
        match jsonSkipWs r1 with
        | ':' :: r2 =>
          match parseJsonVal fuel r2 with
          | none => none
          | some (v, r3) =>
            match jsonSkipWs r3 with
            | ',' :: r4 =>
              match parseJsonMembers fuel r4 with
              | some (.dict ms, r5) => some (.dict ((k, v) :: ms), r5)
              | _ => none
            | c :: r4 =>
              if c == Char.ofNat 125 then some (.dict [(k, v)], r4) else none
            | [] => none
        | _ => none
    | _ => none
end

/-- Model of Python `json.loads`: parses a complete JSON document with
optional surrounding whitespace; anything else is a parse failure
(`json.JSONDecodeError` in the source). -/
def jsonLoads (s : String) : Option PyVal :=
  let cs := s.toList
  match parseJsonVal (4 * cs.length + 4) cs with
  | some (v, rest) => if (jsonSkipWs rest).isEmpty then some v else none
  | none => none

/-! ### Python string helpers used by the decoder -/

/-- Characters removed by Python `str.strip()` (ASCII whitespace set). -/
def isPySpace (c : Char) : Bool :=
  [' ', '\t', '\n', '\r', Char.ofNat 11, Char.ofNat 12].contains c

/-- Python `s.strip()`. -/
def pyStrip (s : String) : String :=
  String.mk (((s.toList.dropWhile isPySpace).reverse.dropWhile isPySpace).reverse)

/-- Python `s.startswith(p)`. -/
def pyStartswith (s p : String) : Bool :=
  s.toList.take p.toList.length == p.toList

/-- Python `s[n:]` for a nonnegative `n`. -/
def pySliceFrom (s : String) (n : Nat) : String :=
  String.mk (s.toList.drop n)

/-! ### `LocalLLMClient.stream_reply` / `generate_reply`
    (src/bot/llm_client.py, lines 86-169) -/

/-- A Python exception escaping the modelled code: attribute, type and key
errors from dynamic access, `httpx.HTTPStatusError` from
`raise_for_status`, and connection/timeout failures (`httpx.TransportError`). -/
inductive PyErr where
  | attributeError
  | typeError
  | keyError
  | httpStatusError (status : Nat)
  | transportError
deriving DecidableEq, Repr

/-- The effect of one iteration of the `async for line` loop body in
`stream_reply`: skip the line (`continue`), stop the stream (`break` on
`[DONE]`), yield one text chunk, or raise an exception. -/
inductive LineStep where
  | skip
  | done
  | yield (s : String)
  | raise (e : PyErr)
deriving Repr

/-- One pass of the loop body of `stream_reply` over a single response line
(llm_client.py lines 109-142), translated step by step:
empty-line skip, `strip`, `data:` prefix test, `[DONE]` break, `json.loads`
with `JSONDecodeError` caught as skip, then the dynamic accesses
`data.get("choices", [])`, truthiness test, `choices[0]`,
`first_choice.get("delta", {})`, `delta.get("content", "")`, truthiness
test, and `yield str(content_piece)`.  The dynamic accesses raise
(`AttributeError`/`TypeError`/`KeyError`) exactly where CPython would on a
value of the wrong shape; those exceptions are not caught by the source. -/
def processLine (line : String) : LineStep :=
  if line == "" then .skip
  else
    let stripped := pyStrip line
    if !(pyStartswith stripped "data:") then .skip
    else
      let dataStr := pyStrip (pySliceFrom stripped 5)
      if dataStr == "[DONE]" then .done
      else
        match jsonLoads dataStr with
        | none => .skip
        | some data =>
          match data with
          | .dict d =>
            let choices := (dictGet d "choices").getD (.list [])
            if !choices.truthy then .skip
            else
              match choices with
              | .list [] => .skip
              | .list (firstChoice :: _) =>
                match firstChoice with
                | .dict fc =>
                  let delta := (dictGet fc "delta").getD (.dict [])
                  match delta with
                  | .dict dd =>
                    let contentPiece := (dictGet dd "content").getD (.str "")
                    if !contentPiece.truthy then .skip
                    else .yield (pyStr contentPiece)
                  | _ => .raise .attributeError
                | _ => .raise .attributeError
              | .str _ => .raise .attributeError
              | .dict _ => .raise .keyError
              | _ => .raise .typeError
          | _ => .raise .attributeError

/-- The whole `async for` loop of `stream_reply` over the response body's
lines: the first component is the sequence of yielded chunks in order, the
second records an exception escaping the generator (`none` when the loop
ends by `break` or by exhausting the lines). -/
def streamLines : List String → List String × Option PyErr
  | [] => ([], none)
  | l :: ls =>
    match processLine l with
    | .skip => streamLines ls
    | .done => ([], none)
    | .yield s =>
      let (rest, e) := streamLines ls
      (s :: rest, e)
    | .raise e => ([], some e)

/-- The model server's observable response to the streaming POST: an HTTP
status code and the body as a list of lines (as delivered by
`response.aiter_lines`). -/
structure HttpResponse where
  status : Nat
  lines : List String

/-- `stream_reply` given the server's response: `response.raise_for_status()`
raises `httpx.HTTPStatusError` for any non-2xx status before the first
yield; otherwise the line loop `streamLines` runs.  (A connection drop
mid-stream surfaces as a `transportError` in the second component via the
response model.) -/
def stream_reply (resp : HttpResponse) : List String × Option PyErr :=
  if resp.status < 200 || 300 ≤ resp.status then ([], some (.httpStatusError resp.status))
  else streamLines resp.lines

/-- The fixed sentinel text `generate_reply` returns for an empty
concatenation (llm_client.py line 167). -/
def emptyReplySentinel : String := "ローカル LLM の応答内容が空でした。"

/-- `generate_reply` (llm_client.py lines 144-169): iterates `stream_reply`,
collecting the chunks; an exception from the stream propagates (the
collected chunks are discarded); otherwise the chunks are joined and the
sentinel is substituted for an empty join. -/
def generate_reply (resp : HttpResponse) : Except PyErr String :=
  match stream_reply resp with
  | (_, some e) => .error e
  | (chunks, none) =>
    let fullText := String.join chunks
    if fullText == "" then .ok emptyReplySentinel else .ok fullText

/-! ### `_build_messages` (llm_client.py, lines 24-84) -/

/-- One part of a multimodal `content` array: `{type: "text", text: s}` or
`{type: "image_url", image_url: {url: u}}`. -/
inductive ContentPart where
  | textPart (s : String)
  | imageUrl (url : String)
deriving DecidableEq, Repr

/-- The `content` field of a chat message: a plain string or a composite
array of parts (vision path). -/
inductive Content where
  | text (s : String)
  | parts (ps : List ContentPart)
deriving DecidableEq, Repr

/-- One `{role, content}` message dict sent to the model. -/
structure ChatMsg where
  role : String
  content : Content
deriving DecidableEq, Repr

/-- `_build_messages` with the two module-global settings reads
(`settings.llm_system_prompt`, line 35, and `settings.llm_supports_vision`,
line 49) taken as the parameters `systemPrompt` and `supportsVision`; the
body otherwise follows llm_client.py lines 33-84 in order: optional system
message, history extended verbatim, then the current user turn, composite
iff the vision flag holds and the image list is non-empty.
(`if history_messages:` followed by `extend` appends nothing for an empty
or absent history, which coincides with plain append of the list.)
Whether those two attribute reads can succeed at all on the real
`Settings` object is settled separately by `build_messages_with_settings`. -/
def build_messages (systemPrompt : String) (supportsVision : Bool)
    (userMessage : String) (historyMessages : List ChatMsg)
    (imageUrls : List String) : List ChatMsg :=
  let messages : List ChatMsg := []
  let messages :=
    if systemPrompt != "" then messages ++ [⟨"system", .text systemPrompt⟩]
    else messages
  let messages := messages ++ historyMessages
  if supportsVision && !imageUrls.isEmpty then
    messages ++ [⟨"user", .parts (.textPart userMessage :: imageUrls.map .imageUrl)⟩]
  else
    messages ++ [⟨"user", .text userMessage⟩]

/-! ### `Settings` and `load_settings` (src/bot/settings.py) -/

/-- The frozen `Settings` dataclass (settings.py lines 12-29): exactly these
seven fields and no others. -/
structure Settings where
  microsoft_app_id : String
  microsoft_app_password : String
  llm_base_url : String
  llm_chat_path : String
  llm_model : String
  host : String
  port : Int
deriving DecidableEq, Repr

/-- Python attribute access `getattr(settings, name)` on a `Settings`
instance: the seven dataclass fields are the only attributes; any other
name raises `AttributeError`, modelled as `none`. -/
def Settings.getattr (st : Settings) (name : String) : Option PyVal :=
  if name == "microsoft_app_id" then some (.str st.microsoft_app_id)
  else if name == "microsoft_app_password" then some (.str st.microsoft_app_password)
  else if name == "llm_base_url" then some (.str st.llm_base_url)
  else if name == "llm_chat_path" then some (.str st.llm_chat_path)
  else if name == "llm_model" then some (.str st.llm_model)
  else if name == "host" then some (.str st.host)
  else if name == "port" then some (.int st.port)
  else none

/-- Python `dict(v)`: succeeds on a dict (copy), raises `TypeError`
otherwise (the exotic iterable-of-pairs forms do not arise from YAML maps). -/
def pyDictOf (v : PyVal) : Except PyErr (List (String × PyVal)) :=
  match v with
  | .dict xs => .ok xs
  | _ => .error .typeError

/-- Python `int(v)` for the values YAML can produce: ints pass through,
bools coerce, strings of decimal digits (with optional sign, surrounding
whitespace) parse, anything else raises. -/
def pyInt (v : PyVal) : Except PyErr Int :=
  match v with
  | .int n => .ok n
  | .bool b => .ok (if b then 1 else 0)
  | .str s =>
    let t := pyStrip s
    let (neg, ds) := match t.toList with
      | '-' :: r => (true, r)
      | '+' :: r => (false, r)
      | r => (false, r)
    if ds.isEmpty || !(ds.all isDigitCh) then .error .typeError
    else .ok (if neg then -(digitRunToNat ds : Int) else (digitRunToNat ds : Int))
  | _ => .error .typeError

/-- `load_settings` (settings.py lines 79-124), with the file resolution and
YAML parsing of lines 83-87 — external IO — replaced by taking the already
parsed configuration dictionary as input.  Section lookup, `str`/`int`
coercions and defaults follow lines 90-124. -/
def load_settings (config_dict : List (String × PyVal)) : Except PyErr Settings := do
  let bot_cfg ← pyDictOf ((dictGet config_dict "bot").getD (.dict []))
  let server_cfg ← pyDictOf ((dictGet config_dict "server").getD (.dict []))
  let llm_cfg ← pyDictOf ((dictGet config_dict "llm").getD (.dict []))
  let microsoft_app_id := pyStr ((dictGet bot_cfg "microsoft_app_id").getD (.str ""))
  let microsoft_app_password := pyStr ((dictGet bot_cfg "microsoft_app_password").getD (.str ""))
  let llm_base_url := pyStr ((dictGet llm_cfg "base_url").getD (.str "http://localhost:1234"))
  let llm_chat_path := pyStr ((dictGet llm_cfg "chat_path").getD (.str "/v1/chat/completions"))
  let llm_model := pyStr ((dictGet llm_cfg "model").getD (.str "local-model"))
  let host := pyStr ((dictGet server_cfg "host").getD (.str "0.0.0.0"))
  let port ← pyInt ((dictGet server_cfg "port").getD (.int 3978))
  return { microsoft_app_id, microsoft_app_password, llm_base_url,
           llm_chat_path, llm_model, host, port }

/-- `_build_messages` as actually executed against the module-global
`settings` object: the read `settings.llm_system_prompt` (llm_client.py
line 35) happens first and raises `AttributeError` if the attribute is
missing; only then is the message list built, with
`settings.llm_supports_vision` (line 49) read when the user turn is
appended.  System-prompt truthiness is string non-emptiness when the
attribute is a string (general truthiness otherwise). -/
def build_messages_with_settings (st : Settings) (userMessage : String)
    (historyMessages : List ChatMsg) (imageUrls : List String) :
    Except PyErr (List ChatMsg) := do
  let sysPrompt ← match st.getattr "llm_system_prompt" with
    | none => Except.error PyErr.attributeError
    | some v => Except.ok v
  let messages : List ChatMsg := []
  let messages :=
    if sysPrompt.truthy then messages ++ [⟨"system", .text (pyStr sysPrompt)⟩]
    else messages
  let messages := messages ++ historyMessages
  let supportsVision ← match st.getattr "llm_supports_vision" with
    | none => Except.error PyErr.attributeError
    | some v => Except.ok v
  if supportsVision.truthy && !imageUrls.isEmpty then
    return messages ++ [⟨"user", .parts (.textPart userMessage :: imageUrls.map .imageUrl)⟩]
  else
    return messages ++ [⟨"user", .text userMessage⟩]

/-- `stream_reply` as executed against the module-global `settings`:
`_build_messages` runs before the HTTP request (llm_client.py line 95), so
an exception there escapes the generator before anything is yielded. -/
def stream_reply_with_settings (st : Settings) (userMessage : String)
    (historyMessages : List ChatMsg) (imageUrls : List String)
    (resp : HttpResponse) : List String × Option PyErr :=
  match build_messages_with_settings st userMessage historyMessages imageUrls with
  | .error e => ([], some e)
  | .ok _ => stream_reply resp

/-- `generate_reply` as executed against the module-global `settings`. -/
def generate_reply_with_settings (st : Settings) (userMessage : String)
    (historyMessages : List ChatMsg) (imageUrls : List String)
    (resp : HttpResponse) : Except PyErr String :=
  match stream_reply_with_settings st userMessage historyMessages imageUrls resp with
  | (_, some e) => .error e
  | (chunks, none) =>
    let fullText := String.join chunks
    if fullText == "" then .ok emptyReplySentinel else .ok fullText

/-! ### `TeamsLLMBot.on_message_activity` (src/bot/teams_bot.py, lines 33-114) -/

/-- The `mentioned` attribute of a mention entity (a channel account with an
`id`). -/
structure Mentioned where
  id : String
deriving DecidableEq, Repr

/-- One entry of `turn_context.activity.entities`: its `type` string and the
optional `mentioned` channel account. -/
structure Entity where
  type : String
  mentioned : Option Mentioned
deriving DecidableEq, Repr

/-- The inbound activity fields the handler reads: `entities` (may be
absent), `text` (may be absent), `recipient.id` (the bot's own identity)
and `conversation.id`. -/
structure ActivityIn where
  entities : Option (List Entity)
  text : Option String
  recipientId : String
  conversationId : String
deriving DecidableEq, Repr

/-- The per-conversation history store `self._conversation_histories`:
a Python dict from conversation id to message list, as an association
list with first-match lookup and in-place update. -/
abbrev Histories := List (String × List ChatMsg)

/-- `self._conversation_histories.get(cid, default)` without the default. -/
def lookupHist (m : Histories) (cid : String) : Option (List ChatMsg) :=
  match m with
  | [] => none
  | (k, v) :: rest => if k == cid then some v else lookupHist rest cid

/-- `self._conversation_histories[cid] = h`: replaces the existing binding
or appends a new one. -/
def setHist (m : Histories) (cid : String) (h : List ChatMsg) : Histories :=
  match m with
  | [] => [(cid, h)]
  | (k, v) :: rest => if k == cid then (cid, h) :: rest else (k, v) :: setHist rest cid h

/-- Python `xs[-n:]` for `n ≤ len xs`: the last `n` elements. -/
def lastN (n : Nat) (xs : List ChatMsg) : List ChatMsg :=
  xs.drop (xs.length - n)

/-- The history-commit step (teams_bot.py lines 105-112): append the user
turn and the assistant turn to the history that was read at the start of
the turn, then keep only the last 20 entries when the length exceeds 20. -/
def commitTurn (history : List ChatMsg) (userMsg assistantMsg : ChatMsg) : List ChatMsg :=
  let new_history := history ++ [userMsg, assistantMsg]
  if new_history.length > 20 then lastN 20 new_history else new_history

/-- Successive commits of user/assistant pairs, one turn at a time. -/
def commitPairs (pairs : List (ChatMsg × ChatMsg)) (history : List ChatMsg) : List ChatMsg :=
  match pairs with
  | [] => history
  | (u, a) :: rest => commitPairs rest (commitTurn history u a)

/-- The mention test (teams_bot.py lines 37-53): filter the entities to
mention-type ones and search for one whose `mentioned.id` equals the bot's
own `recipient.id` (the loop with `break` is an existence test). -/
def computeIsMentioned (act : ActivityIn) : Bool :=
  ((act.entities.getD []).filter (fun e => e.type == "mention")).any
    (fun e =>
      match e.mentioned with
      | some m => m.id == act.recipientId
      | none => false)

/-- The texts passed to `turn_context.update_activity` while streaming: one
update per chunk, each carrying the accumulated text so far
(teams_bot.py lines 91-100). -/
def cumulTexts (acc : String) : List String → List String
  | [] => []
  | c :: cs => (acc ++ c) :: cumulTexts (acc ++ c) cs

/-- The history read at the start of a turn (teams_bot.py line 75):
`self._conversation_histories.get(conversation_id, [])`. -/
def turnRead (histories : Histories) (cid : String) : List ChatMsg :=
  (lookupHist histories cid).getD []

/-- The history write at the end of a turn (teams_bot.py lines 106-114):
commits the pair onto the history that was read earlier — not onto the
store's current contents — and stores the result.  Between `turnRead` and
`turnWrite` the handler suspends at every awaited send, update and
streamed chunk, so other turns may run in between. -/
def turnWrite (histories : Histories) (cid : String) (historyRead : List ChatMsg)
    (userMsg assistantMsg : ChatMsg) : Histories :=
  setHist histories cid (commitTurn historyRead userMsg assistantMsg)

/-- The fixed reply for an empty message text (teams_bot.py line 64). -/
def emptyTextReply : String := "メッセージ内容が空のようです。何か質問やメッセージを送ってください。"

/-- The placeholder text sent before streaming begins (teams_bot.py line 80). -/
def thinkingText : String := "考えています..."

/-- Everything observable about one run of `on_message_activity`: the texts
passed to `send_activity` in order, the texts passed to `update_activity`
in order, the history store afterwards, and an exception escaping the
handler (`none` when it returns normally). -/
structure TurnResult where
  sends : List String
  updates : List String
  histories : Histories
  err : Option PyErr
deriving Repr

/-- `on_message_activity` (teams_bot.py lines 33-114).  The streaming
client's observable behaviour is the argument `llm`: applied to the user
text and the trimmed history it gives the chunks yielded before the stream
either finishes (`none`) or raises (`some e`) — in the real program this is
`stream_reply_with_settings` under the module-global settings and the
server's response.  Paths, in source order: the mention guard (no effect),
the empty-text guard (one fixed reply, no commit), and the streaming turn:
placeholder send, one update per chunk with the accumulated text, then on
normal stream end the commit of `(user turn, accumulated-or-placeholder)`;
an exception from the stream escapes the handler after the updates already
made, skipping the commit (there is no try/except in the source). -/
def on_message_activity (llm : String → List ChatMsg → List String × Option PyErr)
    (histories : Histories) (act : ActivityIn) : TurnResult :=
  if computeIsMentioned act == false then
    { sends := [], updates := [], histories := histories, err := none }
  else
    let user_text := act.text.getD ""
    if user_text == "" then
      { sends := [emptyTextReply], updates := [], histories := histories, err := none }
    else
      let conversation_id := act.conversationId
      let history := turnRead histories conversation_id
      let limited_history := if history.length > 20 then lastN 20 history else history
      let (chunks, llmErr) := llm user_text limited_history
      let updates := cumulTexts "" chunks
      match llmErr with
      | some e =>
        { sends := [thinkingText], updates := updates, histories := histories, err := some e }
      | none =>
        let accumulated_text := String.join chunks
        let final_text := if accumulated_text == "" then thinkingText else accumulated_text
        { sends := [thinkingText], updates := updates,
          histories := turnWrite histories conversation_id history
            ⟨"user", .text user_text⟩ ⟨"assistant", .text final_text⟩,
          err := none }

/-! ### Claim-side definitions (phrased from the specification's words, for
comparison with the source embedding above) -/

/-- Spec wording: a `data:`-prefixed line whose payload (after stripping the
prefix and surrounding whitespace) equals `[DONE]`. -/
def isDataDone (line : String) : Bool :=
  if line == "" then false
  else
    let stripped := pyStrip line
    if !(pyStartswith stripped "data:") then false
    else pyStrip (pySliceFrom stripped 5) == "[DONE]"

/-- Spec wording: the non-empty `choices[0].delta.content` string value
extracted from a line, if any — ignoring empty lines, lines without the
`data:` prefix, unparseable payloads, and payloads in which the path
`choices[0].delta.content` does not lead to a non-empty string. -/
def claimDelta (line : String) : Option String :=
  if line == "" then none
  else
    let stripped := pyStrip line
    if !(pyStartswith stripped "data:") then none
    else
      match jsonLoads (pyStrip (pySliceFrom stripped 5)) with
      | none => none
      | some v =>
        match v with
        | .dict d =>
          match dictGet d "choices" with
          | some (.list (.dict fc :: _)) =>
            match dictGet fc "delta" with
            | some (.dict dd) =>
              match dictGet dd "content" with
              | some (.str s) => if s == "" then none else some s
              | _ => none
            | _ => none
          | _ => none
        | _ => none

/-- Spec wording: the in-order sequence of non-empty
`choices[0].delta.content` string values extracted from the `data:`-prefixed
lines preceding the first `data: [DONE]` line. -/
def claimExtract : List String → List String
  | [] => []
  | l :: ls =>
    if isDataDone l then []
    else
      match claimDelta l with
      | some s => s :: claimExtract ls
      | none => claimExtract ls

/-- A payload shape on which the source decoder's dynamic accesses cannot
raise and cannot yield a stringified non-string: the parsed payload is an
object; its `choices` value, when present and truthy, is a non-empty array
whose first element is an object; that element's `delta` value, when
present, is an object; and the `content` value, when present and truthy,
is a string. -/
def wellShapedPayload (v : PyVal) : Bool :=
  match v with
  | .dict d =>
    match (dictGet d "choices").getD (.list []) with
    | .list [] => true
    | .list (firstChoice :: _) =>
      match firstChoice with
      | .dict fc =>
        match (dictGet fc "delta").getD (.dict []) with
        | .dict dd =>
          match (dictGet dd "content").getD (.str "") with
          | .str _ => true
          | c => !c.truthy
        | _ => false
      | _ => false
    | c => !c.truthy
  | _ => false

/-- A line the source decoder handles without raising: empty, not
`data:`-prefixed, `[DONE]`, unparseable, or parsing to a well-shaped
payload. -/
def wellShapedLine (line : String) : Bool :=
  if line == "" then true
  else
    let stripped := pyStrip line
    if !(pyStartswith stripped "data:") then true
    else
      let dataStr := pyStrip (pySliceFrom stripped 5)
      if dataStr == "[DONE]" then true
      else
        match jsonLoads dataStr with
        | none => true
        | some v => wellShapedPayload v

/-! ### Concrete inputs used by witnesses and counterexamples -/

/-- The spec's scenario chunk carrying the delta `"Hel"`. -/
def demoHelLine : String :=
  "data: \x7b\"choices\":[\x7b\"delta\":\x7b\"content\":\"Hel\"\x7d\x7d]\x7d"

/-- The spec's scenario chunk carrying the delta `"lo"`. -/
def demoLoLine : String :=
  "data: \x7b\"choices\":[\x7b\"delta\":\x7b\"content\":\"lo\"\x7d\x7d]\x7d"

/-- The terminating SSE line. -/
def demoDoneLine : String := "data: [DONE]"

/-- The spec scenario's body lines before `[DONE]`. -/
def demoBody : List String := [demoHelLine, demoLoLine]

/-- A `data:` line whose payload is truncated JSON (parse failure). -/
def demoBadJsonLine : String := "data: \x7b\"choices\":"

/-- A chunk whose delta content is present but empty. -/
def demoEmptyDeltaLine : String :=
  "data: \x7b\"choices\":[\x7b\"delta\":\x7b\"content\":\"\"\x7d\x7d]\x7d"

/-- A successful streaming response whose every delta has empty content. -/
def demoEmptyResp : HttpResponse := ⟨200, [demoEmptyDeltaLine, demoDoneLine]⟩

/-- The `Settings` value `load_settings` produces from an empty
configuration (all defaults). -/
def demoSettings : Settings :=
  ⟨"", "", "http://localhost:1234", "/v1/chat/completions", "local-model", "0.0.0.0", 3978⟩

/-- A mention entity referencing the bot's own id. -/
def mentionBotEntity : Entity := ⟨"mention", some ⟨"bot-id"⟩⟩

/-- An inbound activity whose entities contain no mention of the bot. -/
def demoActNoMention : ActivityIn := ⟨some [⟨"clientInfo", none⟩], some "hello", "bot-id", "conv1"⟩

/-- A mentioned activity whose text is a single space (whitespace-only). -/
def demoActWhitespace : ActivityIn := ⟨some [mentionBotEntity], some " ", "bot-id", "conv1"⟩

/-- A mentioned activity with absent text. -/
def demoActEmptyText : ActivityIn := ⟨some [mentionBotEntity], none, "bot-id", "conv1"⟩

/-- A mentioned activity with the text `"hello"`. -/
def demoActHello : ActivityIn := ⟨some [mentionBotEntity], some "hello", "bot-id", "conv1"⟩

/-- A streaming client that yields one chunk and finishes. -/
def demoLlmHi : String → List ChatMsg → List String × Option PyErr :=
  fun _ _ => (["hi"], none)

/-- A streaming client that fails immediately with HTTP 500. -/
def demoLlm500 : String → List ChatMsg → List String × Option PyErr :=
  fun _ _ => ([], some (.httpStatusError 500))

/-- A pre-existing one-turn history for conversation `conv1`. -/
def demoHistories : Histories :=
  [("conv1", [⟨"user", .text "earlier"⟩, ⟨"assistant", .text "earlier reply"⟩])]

/-- The `i`-th user message of the history-cap scenario. -/
def mkUser (i : Nat) : ChatMsg := ⟨"user", .text ("u" ++ toString i)⟩

/-- The `i`-th assistant message of the history-cap scenario. -/
def mkAssistant (i : Nat) : ChatMsg := ⟨"assistant", .text ("a" ++ toString i)⟩

/-- Eleven user/assistant pairs, numbered 1 to 11. -/
def demoPairs : List (ChatMsg × ChatMsg) :=
  (List.range 11).map (fun i => (mkUser (i + 1), mkAssistant (i + 1)))

/-- Pairs 2 through 11 flattened in order: the expected stored history. -/
def demoExpected : List ChatMsg :=
  ((List.range 10).map (fun i => [mkUser (i + 2), mkAssistant (i + 2)])).flatten

/-- Turn A's user message in the lost-update schedule. -/
def msgUserA : ChatMsg := ⟨"user", .text "question A"⟩

/-- Turn A's assistant message in the lost-update schedule. -/
def msgAssistantA : ChatMsg := ⟨"assistant", .text "answer A"⟩

/-- Turn B's user message in the lost-update schedule. -/
def msgUserB : ChatMsg := ⟨"user", .text "question B"⟩

/-- Turn B's assistant message in the lost-update schedule. -/
def msgAssistantB : ChatMsg := ⟨"assistant", .text "answer B"⟩

/-- The store after two concurrent turns on `conv1` interleave as
read-A, read-B, write-A, write-B — a schedule the cooperative scheduler
permits because the handler suspends (awaited sends, updates and stream
chunks) between its history read and its history write. -/
def lostUpdateFinal : Histories :=
  let h0 : Histories := []
  let readA := turnRead h0 "conv1"
  let readB := turnRead h0 "conv1"
  let h1 := turnWrite h0 "conv1" readA msgUserA msgAssistantA
  turnWrite h1 "conv1" readB msgUserB msgAssistantB

/-- The trimmed history a turn hands to the streaming client
(teams_bot.py lines 75-77). -/
def limitedHistoryOf (histories : Histories) (cid : String) : List ChatMsg :=
  let history := turnRead histories cid
  if history.length > 20 then lastN 20 history else history

/-! ### Theorems -/

/-- C2: after any write via the commit step the stored history has length at
most 20 and is a suffix of the pre-commit history followed by the two new
entries (so relative order is preserved and the oldest entries are dropped
first); and committing 11 user/assistant pairs one at a time onto an empty
history stores exactly pairs 2 through 11, in order (20 entries). -/
theorem history_commit_invariants :
    (∀ (history : List ChatMsg) (userMsg assistantMsg : ChatMsg),
      (commitTurn history userMsg assistantMsg).length ≤ 20 ∧
      ∃ k, commitTurn history userMsg assistantMsg =
        (history ++ [userMsg, assistantMsg]).drop k) ∧
    commitPairs demoPairs [] = demoExpected ∧ demoExpected.length = 20 := by
  refine ⟨fun history u a => ?_, by rfl, by rfl⟩
  unfold commitTurn lastN
  by_cases hl : (history ++ [u, a]).length > 20
  · simp only [hl, if_pos]
    constructor
    · rw [List.length_drop]
      omega
    · exact ⟨(history ++ [u, a]).length - 20, rfl⟩
  · simp only [hl, if_neg, not_false_iff]
    exact ⟨by omega, 0, (List.drop_zero _).symm⟩

/-- C5: for every user message, history, image-URL list, system-prompt
setting and vision-capability setting, the built message sequence is the
optional system message first (present exactly when the system prompt is
non-empty), then the history verbatim in order, then the current turn last
with role `user`, whose content is one text part followed by one
`image_url` part per URL in input order when the vision flag is set and the
image list is non-empty, and the plain text otherwise. -/
theorem build_messages_structure (systemPrompt : String) (supportsVision : Bool)
    (userMessage : String) (historyMessages : List ChatMsg) (imageUrls : List String) :
    build_messages systemPrompt supportsVision userMessage historyMessages imageUrls =
      (if systemPrompt ≠ "" then [⟨"system", .text systemPrompt⟩] else [])
        ++ historyMessages
        ++ [⟨"user",
              if supportsVision = true ∧ imageUrls ≠ [] then
                .parts (.textPart userMessage :: imageUrls.map .imageUrl)
              else .text userMessage⟩] := by
  unfold build_messages
  by_cases hsp : systemPrompt = "" <;>
    by_cases hv : supportsVision = true <;>
    by_cases hiu : imageUrls = [] <;>
      simp [hsp, hv, hiu, List.isEmpty_iff, List.append_assoc]

/-- C6: `_build_messages` reads `settings.llm_system_prompt` and
`settings.llm_supports_vision`, neither of which is a field of the frozen
`Settings` dataclass constructed by `load_settings`; consequently every
call to it — and therefore to `stream_reply` and `generate_reply`, which
build the message list first — fails with `AttributeError` instead of
returning a message list. -/
theorem settings_missing_llm_attributes :
    (∀ st : Settings,
      st.getattr "llm_system_prompt" = none ∧ st.getattr "llm_supports_vision" = none) ∧
    (∀ (config_dict : List (String × PyVal)) (st : Settings),
      load_settings config_dict = Except.ok st →
      st.getattr "llm_system_prompt" = none ∧ st.getattr "llm_supports_vision" = none) ∧
    (∀ (st : Settings) (u : String) (h : List ChatMsg) (iu : List String),
      build_messages_with_settings st u h iu = Except.error PyErr.attributeError) ∧
    (∀ (st : Settings) (u : String) (h : List ChatMsg) (iu : List String)
      (resp : HttpResponse),
      stream_reply_with_settings st u h iu resp = ([], some PyErr.attributeError)) ∧
    (∀ (st : Settings) (u : String) (h : List ChatMsg) (iu : List String)
      (resp : HttpResponse),
      generate_reply_with_settings st u h iu resp = Except.error PyErr.attributeError) := by
  refine ⟨fun st => ⟨rfl, rfl⟩, fun cfg st _ => ⟨rfl, rfl⟩, fun st u h iu => rfl,
    fun st u h iu resp => rfl, fun st u h iu resp => rfl⟩

/-- C6 witness: `load_settings` on the empty configuration succeeds with the
default `Settings`, on which the attribute read that `_build_messages`
performs first indeed fails. -/
theorem settings_missing_llm_attributes_witness :
    load_settings [] = Except.ok demoSettings ∧
    Settings.getattr demoSettings "llm_system_prompt" = none ∧
    build_messages_with_settings demoSettings "hi" [] [] =
      Except.error PyErr.attributeError :=
  ⟨rfl, (settings_missing_llm_attributes.2.1 [] demoSettings rfl).1,
    settings_missing_llm_attributes.2.2.1 demoSettings "hi" [] []⟩

/-- C8: whenever the stream completes without an exception and the
concatenation of the streamed deltas is empty, `generate_reply` returns the
fixed sentinel message rather than the empty string; and a successful
`generate_reply` result is never the empty string. -/
theorem generate_reply_sentinel_on_empty (resp : HttpResponse) :
    (∀ s, generate_reply resp = Except.ok s → s ≠ "") ∧
    ((stream_reply resp).2 = none → String.join (stream_reply resp).1 = "" →
      generate_reply resp = Except.ok emptyReplySentinel) := by
  constructor
  · intro s hs
    unfold generate_reply at hs
    rcases hr : stream_reply resp with ⟨chunks, e⟩
    rw [hr] at hs
    cases e with
    | some e => exact absurd hs (by simp)
    | none =>
      by_cases hj : String.join chunks == ""
      · simp only [hj, if_pos] at hs
        have : s = emptyReplySentinel := by
          injection hs with h
          exact h.symm
        rw [this]
        decide
      · simp only [hj, Bool.false_eq_true, if_neg, not_false_iff] at hs
        injection hs with h
        have hne : String.join chunks ≠ "" := by simpa using hj
        exact h ▸ hne
  · intro he hj
    unfold generate_reply
    rcases hr : stream_reply resp with ⟨chunks, e⟩
    rw [hr] at he hj
    simp only at he hj
    rw [he] at hr ⊢
    simp only [hj]
    rfl

/-- C8 witness: a stream whose only delta has empty content yields nothing,
so the buffered reply is the sentinel. -/
theorem generate_reply_sentinel_on_empty_witness :
    (stream_reply demoEmptyResp).2 = none ∧
    String.join (stream_reply demoEmptyResp).1 = "" ∧
    generate_reply demoEmptyResp = Except.ok emptyReplySentinel :=
  ⟨rfl, rfl, (generate_reply_sentinel_on_empty demoEmptyResp).2 rfl rfl⟩

/-- C9: when the activity's mention annotations contain no mention of the
bot's own identity (including no annotations at all), the handler sends
nothing, updates nothing, leaves every conversation history unchanged, and
returns normally — independently of the streaming client. -/
theorem no_mention_no_effect (llm : String → List ChatMsg → List String × Option PyErr)
    (histories : Histories) (act : ActivityIn)
    (h : ∀ e ∈ act.entities.getD [], e.type = "mention" →
      ∀ m, e.mentioned = some m → m.id ≠ act.recipientId) :
    on_message_activity llm histories act =
      { sends := [], updates := [], histories := histories, err := none } := by
  have hm : computeIsMentioned act = false := by
    unfold computeIsMentioned
    rw [List.any_eq_false]
    intro e he
    have hmem := List.mem_filter.mp he
    have htype : e.type = "mention" := by simpa using hmem.2
    cases hme : e.mentioned with
    | none => simp
    | some m =>
      have := h e hmem.1 htype m hme
      simpa using this
  unfold on_message_activity
  simp [hm]

/-- C9 witness: an activity with only a non-mention entity triggers no
reply and no history change. -/
theorem no_mention_no_effect_witness :
    (∀ e ∈ demoActNoMention.entities.getD [], e.type = "mention" →
      ∀ m, e.mentioned = some m → m.id ≠ demoActNoMention.recipientId) ∧
    on_message_activity demoLlmHi demoHistories demoActNoMention =
      { sends := [], updates := [], histories := demoHistories, err := none } :=
  ⟨by decide, no_mention_no_effect demoLlmHi demoHistories demoActNoMention (by decide)⟩

/-- C4 counterexample: a mentioned message whose text is the single space
`" "` (whitespace-only) does not take the prompt-for-input path — the
handler sends the streaming placeholder and commits to history, because
the source guards only `if not user_text`, which is false for `" "`. -/
theorem whitespace_text_not_guarded :
    ¬ ((on_message_activity demoLlmHi [] demoActWhitespace).sends = [emptyTextReply] ∧
       (on_message_activity demoLlmHi [] demoActWhitespace).histories = ([] : Histories)) := by
  intro hcontra
  have h1 := hcontra.1
  rw [show (on_message_activity demoLlmHi [] demoActWhitespace).sends = [thinkingText]
    from rfl] at h1
  exact absurd h1 (by decide)

/-- C4 (amended): for every inbound mentioned message whose text is empty
(absent or the empty string — not merely whitespace), the handler sends the
fixed prompt-for-input reply and terminates the turn with no update
activity, no history change, and no dependence on the streaming client. -/
theorem empty_text_prompts_for_input
    (llm : String → List ChatMsg → List String × Option PyErr)
    (histories : Histories) (act : ActivityIn)
    (hm : computeIsMentioned act = true) (ht : act.text.getD "" = "") :
    on_message_activity llm histories act =
      { sends := [emptyTextReply], updates := [], histories := histories, err := none } := by
  unfold on_message_activity
  simp [hm, ht]

/-- C4 witness: a mentioned activity with absent text receives the fixed
prompt-for-input reply; the history store is untouched. -/
theorem empty_text_prompts_for_input_witness :
    computeIsMentioned demoActEmptyText = true ∧
    demoActEmptyText.text.getD "" = "" ∧
    on_message_activity demoLlmHi demoHistories demoActEmptyText =
      { sends := [emptyTextReply], updates := [], histories := demoHistories, err := none } :=
  ⟨rfl, rfl, empty_text_prompts_for_input demoLlmHi demoHistories demoActEmptyText rfl rfl⟩

/-- C3 counterexample: when the streaming call fails (here HTTP 500 before
the first chunk), the handler does not terminate normally — the exception
escapes `on_message_activity` (there is no try/except and no error handler
registered on the adapter), so no visible error reply is sent by the turn. -/
theorem stream_failure_escapes_dispatcher :
    ¬ ((on_message_activity demoLlm500 demoHistories demoActHello).err = none) := by
  intro hcontra
  rw [show (on_message_activity demoLlm500 demoHistories demoActHello).err =
    some (PyErr.httpStatusError 500) from rfl] at hcontra
  exact Option.noConfusion hcontra

/-- C3 (amended): if the streaming call fails during reply generation
(HTTPError or TransportError), the turn commits nothing — the stored
history for every conversation is exactly unchanged — and the only message
sent is the placeholder; the handler does not convert the failure into a
visible error reply but lets the exception escape. -/
theorem stream_failure_aborts_without_commit
    (llm : String → List ChatMsg → List String × Option PyErr)
    (histories : Histories) (act : ActivityIn) (chunks : List String) (e : PyErr)
    (hm : computeIsMentioned act = true) (ht : (act.text.getD "" == "") = false)
    (hllm : llm (act.text.getD "") (limitedHistoryOf histories act.conversationId) =
      (chunks, some e)) :
    on_message_activity llm histories act =
      { sends := [thinkingText], updates := cumulTexts "" chunks,
        histories := histories, err := some e } := by
  unfold on_message_activity
  unfold limitedHistoryOf at hllm
  simp [hm, ht, hllm]

/-- C3 witness: a mentioned turn whose stream fails with HTTP 500 leaves
the pre-existing history exactly as it was and raises out of the handler. -/
theorem stream_failure_aborts_without_commit_witness :
    computeIsMentioned demoActHello = true ∧
    (demoActHello.text.getD "" == "") = false ∧
    demoLlm500 (demoActHello.text.getD "")
      (limitedHistoryOf demoHistories demoActHello.conversationId) =
      ([], some (PyErr.httpStatusError 500)) ∧
    on_message_activity demoLlm500 demoHistories demoActHello =
      { sends := [thinkingText], updates := [], histories := demoHistories,
        err := some (PyErr.httpStatusError 500) } :=
  ⟨rfl, rfl, rfl,
    stream_failure_aborts_without_commit demoLlm500 demoHistories demoActHello []
      (PyErr.httpStatusError 500) rfl rfl rfl⟩

/-- C10: two concurrent turns on the same conversation can interleave as
read-A, read-B, write-A, write-B (the handler suspends between its history
read and write), after which turn A's user/assistant pair has been silently
dropped: the final stored history holds only turn B's pair, refuting
read-then-write atomicity per conversation. -/
theorem concurrent_turns_lose_update :
    lookupHist lostUpdateFinal "conv1" = some [msgUserB, msgAssistantB] ∧
    ((lookupHist lostUpdateFinal "conv1").getD []).contains msgUserA = false ∧
    ((lookupHist lostUpdateFinal "conv1").getD []).contains msgAssistantA = false := by
  refine ⟨rfl, by decide, by decide⟩

/-- Removing a line the loop body skips does not change the stream's output
or its termination behaviour. -/
theorem streamLines_append_skip (pre post : List String) (l : String)
    (hskip : processLine l = LineStep.skip) :
    streamLines (pre ++ l :: post) = streamLines (pre ++ post) := by
  induction pre with
  | nil => simp [streamLines, hskip]
  | cons p ps ih =>
    simp only [List.cons_append, streamLines]
    cases hp : processLine p <;> simp [hp, ih]

/-- C7: a `data:` line whose payload is not `[DONE]` and fails JSON parsing
contributes no yielded delta and does not abort decoding: the stream's
entire output — including every subsequently decoded line — is as if the
malformed line were absent, and the per-line parse failure never reaches
the caller. -/
theorem malformed_data_line_skipped (pre post : List String) (l : String)
    (h1 : pyStartswith (pyStrip l) "data:" = true)
    (h2 : (pyStrip (pySliceFrom (pyStrip l) 5) == "[DONE]") = false)
    (h3 : jsonLoads (pyStrip (pySliceFrom (pyStrip l) 5)) = none) :
    streamLines (pre ++ l :: post) = streamLines (pre ++ post) := by
  have hskip : processLine l = LineStep.skip := by
    unfold processLine
    by_cases h0 : l == ""
    · simp [h0]
    · simp [h0, h1, h2, h3]
  exact streamLines_append_skip pre post l hskip

/-- C7 witness: a truncated-JSON `data:` line between two valid delta lines
is dropped; the surrounding deltas still decode, in order. -/
theorem malformed_data_line_skipped_witness :
    pyStartswith (pyStrip demoBadJsonLine) "data:" = true ∧
    (pyStrip (pySliceFrom (pyStrip demoBadJsonLine) 5) == "[DONE]") = false ∧
    jsonLoads (pyStrip (pySliceFrom (pyStrip demoBadJsonLine) 5)) = none ∧
    streamLines ([demoHelLine] ++ demoBadJsonLine :: [demoLoLine, demoDoneLine]) =
      streamLines ([demoHelLine] ++ [demoLoLine, demoDoneLine]) ∧
    streamLines ([demoHelLine] ++ [demoLoLine, demoDoneLine]) = (["Hel", "lo"], none) :=
  ⟨rfl, rfl, rfl,
    malformed_data_line_skipped [demoHelLine] [demoLoLine, demoDoneLine]
      demoBadJsonLine rfl rfl rfl, rfl⟩

/-- A line the spec calls the `data: [DONE]` terminator makes the loop body
`break`. -/
theorem done_of_isDataDone (l : String) (hd : isDataDone l = true) :
    processLine l = LineStep.done := by
  unfold isDataDone at hd
  unfold processLine
  by_cases h0 : l == ""
  · simp [h0] at hd
  · by_cases h1 : pyStartswith (pyStrip l) "data:"
    · have h2 : (pyStrip (pySliceFrom (pyStrip l) 5) == "[DONE]") = true := by
        simpa [h0, h1] using hd
      simp [h0, h1, h2]
    · simp [h0, h1] at hd

/-- On a well-shaped, non-terminator line the loop body does exactly what
the spec's extraction prescribes: yield the non-empty
`choices[0].delta.content` string if the line carries one, skip otherwise. -/
theorem processLine_eq_claimDelta (l : String)
    (hw : wellShapedLine l = true) (hd : isDataDone l = false) :
    processLine l = (match claimDelta l with
      | some s => LineStep.yield s
      | none => LineStep.skip) := by
  by_cases h0 : l == ""
  · simp [processLine, claimDelta, h0]
  · by_cases h1 : pyStartswith (pyStrip l) "data:"
    · have h2 : (pyStrip (pySliceFrom (pyStrip l) 5) == "[DONE]") = false := by
        have := hd
        unfold isDataDone at this
        simpa [h0, h1] using this
      cases hj : jsonLoads (pyStrip (pySliceFrom (pyStrip l) 5)) with
      | none => simp [processLine, claimDelta, h0, h1, h2, hj]
      | some v =>
        have hwp : wellShapedPayload v = true := by
          have := hw
          unfold wellShapedLine at this
          simpa [h0, h1, h2, hj] using this
        simp only [processLine, claimDelta, h0, h1, h2, hj, Bool.not_true,
          Bool.false_eq_true, if_neg, not_false_iff, Bool.not_false, if_true,
          Bool.not_eq_true]
        cases v with
        | null => simp [wellShapedPayload] at hwp
        | bool b => simp [wellShapedPayload] at hwp
        | int n => simp [wellShapedPayload] at hwp
        | str s => simp [wellShapedPayload] at hwp
        | list xs => simp [wellShapedPayload] at hwp
        | dict d =>
          cases hc : dictGet d "choices" with
          | none => simp [h0, h1, h2, hj, hc, PyVal.truthy]
          | some cv =>
            cases cv with
            | null => simp [h0, h1, h2, hj, hc, PyVal.truthy]
            | bool b =>
              have hfalsy : (PyVal.bool b).truthy = false := by
                simpa [wellShapedPayload, hc] using hwp
              simp [h0, h1, h2, hj, hc, hfalsy]
            | int n =>
              have hfalsy : (PyVal.int n).truthy = false := by
                simpa [wellShapedPayload, hc] using hwp
              simp [h0, h1, h2, hj, hc, hfalsy]
            | str s =>
              have hfalsy : (PyVal.str s).truthy = false := by
                simpa [wellShapedPayload, hc] using hwp
              simp [h0, h1, h2, hj, hc, hfalsy]
            | dict d2 =>
              have hfalsy : (PyVal.dict d2).truthy = false := by
                simpa [wellShapedPayload, hc] using hwp
              simp [h0, h1, h2, hj, hc, hfalsy]
            | list xs =>
              cases xs with
              | nil => simp [h0, h1, h2, hj, hc, PyVal.truthy]
              | cons fc rest =>
                cases fc with
                | dict fcd =>
                  cases hdl : dictGet fcd "delta" with
                  | none => simp [h0, h1, h2, hj, hc, hdl, PyVal.truthy, dictGet]
                  | some dv =>
                    cases dv with
                    | dict dd =>
                      cases hct : dictGet dd "content" with
                      | none => simp [h0, h1, h2, hj, hc, hdl, hct, PyVal.truthy]
                      | some cvv =>
                        cases cvv with
                        | str s =>
                          by_cases hse : s == ""
                          · have hse2 : s = "" := eq_of_beq hse
                            subst hse2
                            simp [h0, h1, h2, hj, hc, hdl, hct, PyVal.truthy]
                          · have hse2 : s ≠ "" := by simpa using hse
                            simp [h0, h1, h2, hj, hc, hdl, hct, hse, hse2,
                              PyVal.truthy, pyStr]
                        | null =>
                          simp [h0, h1, h2, hj, hc, hdl, hct, PyVal.truthy]
                        | bool b =>
                          have hfalsy : (PyVal.bool b).truthy = false := by
                            simpa [wellShapedPayload, hc, hdl, hct] using hwp
                          simp [h0, h1, h2, hj, hc, hdl, hct, hfalsy]
                        | int n =>
                          have hfalsy : (PyVal.int n).truthy = false := by
                            simpa [wellShapedPayload, hc, hdl, hct] using hwp
                          simp [h0, h1, h2, hj, hc, hdl, hct, hfalsy]
                        | list ys =>
                          have hfalsy : (PyVal.list ys).truthy = false := by
                            simpa [wellShapedPayload, hc, hdl, hct] using hwp
                          simp [h0, h1, h2, hj, hc, hdl, hct, hfalsy]
                        | dict d3 =>
                          have hfalsy : (PyVal.dict d3).truthy = false := by
                            simpa [wellShapedPayload, hc, hdl, hct] using hwp
                          simp [h0, h1, h2, hj, hc, hdl, hct, hfalsy]
                    | null => simp [wellShapedPayload, hc, hdl] at hwp
                    | bool b => simp [wellShapedPayload, hc, hdl] at hwp
                    | int n => simp [wellShapedPayload, hc, hdl] at hwp
                    | str s => simp [wellShapedPayload, hc, hdl] at hwp
                    | list ys => simp [wellShapedPayload, hc, hdl] at hwp
                | null => simp [wellShapedPayload, hc] at hwp
                | bool b => simp [wellShapedPayload, hc] at hwp
                | int n => simp [wellShapedPayload, hc] at hwp
                | str s => simp [wellShapedPayload, hc] at hwp
                | list ys => simp [wellShapedPayload, hc] at hwp
    · simp [processLine, claimDelta, h0, h1]

/-- Over a body of well-shaped, non-terminator lines followed by a `[DONE]`
line and arbitrary unconsumed lines, the stream's yields are exactly the
spec-side extraction of the body, no exception escapes, and the extraction
ignores everything from `[DONE]` on. -/
theorem streamLines_claimExtract_until_done (body junk : List String) (dl : String)
    (hs : body.all (fun l => wellShapedLine l && !isDataDone l) = true)
    (hd : isDataDone dl = true) :
    streamLines (body ++ dl :: junk) = (claimExtract body, none) ∧
    claimExtract (body ++ dl :: junk) = claimExtract body := by
  induction body with
  | nil =>
    have hpd := done_of_isDataDone dl hd
    constructor
    · simp [streamLines, hpd, claimExtract]
    · simp [claimExtract, hd]
  | cons l ls ih =>
    have hsl : (wellShapedLine l && !isDataDone l) = true ∧
        ls.all (fun l => wellShapedLine l && !isDataDone l) = true := by
      simpa [List.all_cons] using hs
    have hwl : wellShapedLine l = true := by
      have := hsl.1
      simp only [Bool.and_eq_true] at this
      exact this.1
    have hndone : isDataDone l = false := by
      have := hsl.1
      simp only [Bool.and_eq_true, Bool.not_eq_true'] at this
      exact this.2
    have hb := processLine_eq_claimDelta l hwl hndone
    obtain ⟨ih1, ih2⟩ := ih hsl.2
    cases hcd : claimDelta l with
    | none =>
      rw [hcd] at hb
      refine ⟨?_, ?_⟩
      · simp [streamLines, hb, ih1, claimExtract, hndone, hcd]
      · simp [claimExtract, hndone, hcd, ih2]
    | some s =>
      rw [hcd] at hb
      refine ⟨?_, ?_⟩
      · simp [streamLines, hb, ih1, claimExtract, hndone, hcd]
      · simp [claimExtract, hndone, hcd, ih2]

/-- C1 counterexample: on the line sequence `["data: 5", "data: [DONE]"]` —
which ends in a `data: [DONE]` line and whose extraction is empty — the
stream does not yield that extraction and finish: the payload `5` parses to
a non-object, `data.get("choices", [])` raises `AttributeError`, and the
exception escapes the generator. -/
theorem stream_reply_nonobject_payload_raises :
    stream_reply ⟨200, ["data: 5", "data: [DONE]"]⟩ ≠
      (claimExtract ["data: 5", "data: [DONE]"], none) := by
  intro hcontra
  rw [show stream_reply ⟨200, ["data: 5", "data: [DONE]"]⟩ =
    ([], some PyErr.attributeError) from rfl] at hcontra
  have := congrArg Prod.snd hcontra
  exact Option.noConfusion this

/-- C1 (amended): for every sequence of SSE input lines ending in a
`data: [DONE]` line whose preceding lines are well-shaped (each parsed
`data:` payload is an object whose `choices`, when present and truthy, is a
non-empty array of objects with object `delta`s whose truthy `content` is a
string), `stream_reply` yields exactly the in-order sequence of non-empty
`choices[0].delta.content` string values extracted from the `data:`-prefixed
lines preceding the `[DONE]` line — ignoring empty lines, non-`data:` lines
and lines past `[DONE]` — and `generate_reply` returns their concatenation
when it is non-empty. -/
theorem stream_reply_matches_claim_extraction (body junk : List String) (dl : String)
    (hs : body.all (fun l => wellShapedLine l && !isDataDone l) = true)
    (hd : isDataDone dl = true) :
    stream_reply ⟨200, body ++ dl :: junk⟩ = (claimExtract body, none) ∧
    claimExtract (body ++ dl :: junk) = claimExtract body ∧
    (String.join (claimExtract body) ≠ "" →
      generate_reply ⟨200, body ++ dl :: junk⟩ =
        Except.ok (String.join (claimExtract body))) := by
  obtain ⟨h1, h2⟩ := streamLines_claimExtract_until_done body junk dl hs hd
  have hsr : stream_reply ⟨200, body ++ dl :: junk⟩ = (claimExtract body, none) := by
    unfold stream_reply
    simpa using h1
  refine ⟨hsr, h2, fun hne => ?_⟩
  unfold generate_reply
  rw [hsr]
  simp [hne]

/-- C1 witness: the spec's two-chunk scenario — deltas `["Hel", "lo"]`,
buffered result `"Hello"`. -/
theorem stream_reply_matches_claim_extraction_witness :
    demoBody.all (fun l => wellShapedLine l && !isDataDone l) = true ∧
    isDataDone demoDoneLine = true ∧
    stream_reply ⟨200, demoBody ++ demoDoneLine :: []⟩ = (["Hel", "lo"], none) ∧
    generate_reply ⟨200, demoBody ++ demoDoneLine :: []⟩ = Except.ok "Hello" := by
  have h := stream_reply_matches_claim_extraction demoBody [] demoDoneLine rfl rfl
  exact ⟨rfl, rfl, h.1.trans (by rfl), (h.2.2 (by decide)).trans (by rfl)⟩
